import Mathlib

/-!
Shallow embedding of the authentication and CRUD code of the blog backend
(`src/unnamed/part_001` server routes and passport LocalStrategy,
`src/app/models/user.js` model hooks), together with a model of the external
bcrypt password hasher taken from the specification's hasher contract.
-/

namespace BlogAuth

/-- Modelled from the spec: the Password Hasher (the external bcrypt library used
by `encryptPassword` and `validatePassword`, not part of this repository's
sources).  Per the spec, `hash` embeds a randomized salt in its output and
`verify` recovers the salt and recomputes, yielding `true` exactly for the
original plaintext.  Here a hash output is the bcrypt magic `$2b$10$`, the salt
written in unary as `0` characters, a `$` separator, and a digest that
determines the plaintext. -/
def bcryptMagic : List Char := ['$', '2', 'b', '$', '1', '0', '$']

/-- Model of `bcrypt.hash(p, 10)`: `salt` stands for the random per-call salt. -/
def bcryptHash (salt : Nat) (p : String) : String :=
  ⟨bcryptMagic ++ List.replicate salt '0' ++ '$' :: p.data⟩

/-- Removes an expected literal from the front of a character list, if present. -/
def dropLit : List Char → List Char → Option (List Char)
  | [], cs => some cs
  | _ :: _, [] => none
  | a :: as, c :: cs => if a = c then dropLit as cs else none

/-- Reads a unary salt (a run of `0` characters ended by `$`) off a character
list, returning the salt and the remainder. -/
def parseSalt : List Char → Option (Nat × List Char)
  | [] => none
  | c :: cs =>
    if c = '$' then some (0, cs)
    else if c = '0' then
      match parseSalt cs with
      | some (n, rest) => some (n + 1, rest)
      | none => none
    else none

/-- Model of `bcrypt.compare(p, h)`: strip the magic, recover the salt, and
check that the digest is the one `bcryptHash` would produce for `p`. -/
def bcryptCompare (p h : String) : Bool :=
  match dropLit bcryptMagic h.data with
  | none => false
  | some rest =>
    match parseSalt rest with
    | none => false
    | some (_, d) => decide (d = p.data)

/-- Extracts the salt recorded in a hash output, when well formed. -/
def saltOf (h : String) : Option Nat :=
  match dropLit bcryptMagic h.data with
  | none => none
  | some rest =>
    match parseSalt rest with
    | none => none
    | some (s, _) => some s

theorem dropLit_append (pre rest : List Char) : dropLit pre (pre ++ rest) = some rest := by
  induction pre with
  | nil => rfl
  | cons a as ih => simpa [dropLit] using ih

theorem parseSalt_encode (s : Nat) (p : List Char) :
    parseSalt (List.replicate s '0' ++ '$' :: p) = some (s, p) := by
  induction s with
  | zero => simp [parseSalt]
  | succ n ih =>
    rw [List.replicate_succ, List.cons_append, parseSalt]
    rw [if_neg (by decide), if_pos rfl, ih]

theorem bcryptHash_data (salt : Nat) (p : String) :
    (bcryptHash salt p).data = bcryptMagic ++ List.replicate salt '0' ++ '$' :: p.data := rfl

theorem bcryptCompare_hash (salt : Nat) (p : String) :
    bcryptCompare p (bcryptHash salt p) = true := by
  simp [bcryptCompare, bcryptHash_data, dropLit_append, parseSalt_encode]

theorem bcryptCompare_hash_ne (salt : Nat) (p q : String) (h : p ≠ q) :
    bcryptCompare p (bcryptHash salt q) = false := by
  have hd : q.data ≠ p.data := by
    intro hdq
    exact h (by cases p; cases q; exact congrArg String.mk hdq.symm)
  simp [bcryptCompare, bcryptHash_data, dropLit_append, parseSalt_encode, hd]

theorem bcryptHash_ne_plain (salt : Nat) (p : String) : bcryptHash salt p ≠ p := by
  intro h
  have hlen := congrArg (fun s => s.data.length) h
  simp [bcryptHash_data, bcryptMagic] at hlen
  omega

theorem saltOf_hash (salt : Nat) (p : String) : saltOf (bcryptHash salt p) = some salt := by
  simp [saltOf, bcryptHash_data, dropLit_append, parseSalt_encode]

theorem bcryptHash_salt_ne (s₁ s₂ : Nat) (p : String) (h : s₁ ≠ s₂) :
    bcryptHash s₁ p ≠ bcryptHash s₂ p := by
  intro he
  have := congrArg saltOf he
  rw [saltOf_hash, saltOf_hash] at this
  exact h (by simpa using this)

/-- A row of the `users` table as Bookshelf materializes it: the attributes the
routes and hooks touch (the `password` attribute holds whatever string is
stored, plaintext before the creating hook runs, the hash after). -/
structure UserRecord where
  id : Nat
  username : String
  password : String
deriving DecidableEq

/-- Errors a handler can observe: a thrown TypeError (property access on
null/undefined), a knex/storage rejection, or a bcrypt rejection. -/
inductive JsError where
  | typeError (msg : String)
  | storageError (msg : String)
  | hashError (msg : String)
deriving DecidableEq

/-- Outcome of the passport strategy, as delivered through `done`:
`done(null, usr)`, `done(null, false)`, or `done(err)`. -/
inductive AuthOutcome where
  | authenticated (u : UserRecord)
  | rejected
  | errored (e : JsError)
deriving DecidableEq

/-- Embedding of the LocalStrategy callback (src/unnamed/part_001 lines 52-69).
`fetchRes` is the settled result of `User.forge({username}).fetch()`: a
rejection, or the matching record, or `none` when no row matches (Bookshelf
resolves null).  The source guard is `if (usr) return done(null, false)`, so a
found record is immediately rejected and the password is never consulted; when
`usr` is null, evaluating `usr.validatePassword(password)` inside the `.then`
handler throws a TypeError, which rejects the outer chain and reaches the
trailing `.catch(err => done(err))`. -/
def localStrategy (fetchRes : Except JsError (Option UserRecord)) (_password : String) :
    AuthOutcome :=
  match fetchRes with
  | .error e => .errored e
  | .ok (some _) => .rejected
  | .ok none => .errored (.typeError "Cannot read property validatePassword of null")

/-- Embedding of `encryptPassword` (src/app/models/user.js lines 20-28): bcrypt
hashes the model's password attribute and `model.set` replaces it; `salt` is
the random salt bcrypt draws for this call. -/
def encryptPassword (salt : Nat) (m : UserRecord) : UserRecord :=
  { m with password := bcryptHash salt m.password }

/-- Embedding of persisting a new user (src/app/models/user.js lines 10-12):
the model subscribes `encryptPassword` to the `creating` event, so the hook
rewrites the password attribute before the insert is committed; the committed
row is the hook's output. -/
def createUser (salt : Nat) (attrs : UserRecord) : UserRecord :=
  encryptPassword salt attrs

/-- Shared body of both `validatePassword` variants (src/app/models/user.js
lines 29-38 and 90-99): read `self.attributes.password` and bcrypt-compare the
supplied password against it.  `boundModel` is what `let self = this` captured:
in the function-declared variant `this` is the receiving model; in the arrow
variant `this` is the enclosing module context, which has no `attributes`, so
the property read throws a TypeError and the promise rejects. -/
def validatePasswordBody (boundModel : Option UserRecord) (supplied : String) :
    Except JsError Bool :=
  match boundModel with
  | none => .error (.typeError "Cannot read property password of undefined")
  | some m => .ok (bcryptCompare supplied m.password)

/-- The arrow-function variant of `validatePassword` (src/app/models/user.js
lines 29-38): `this` does not bind to the model. -/
def validatePasswordArrow (_model : UserRecord) (supplied : String) : Except JsError Bool :=
  validatePasswordBody none supplied

/-- The function-declared variant of `validatePassword` (src/app/models/user.js
lines 90-99): `this` is the model, so the stored hash is read. -/
def validatePasswordFn (model : UserRecord) (supplied : String) : Except JsError Bool :=
  validatePasswordBody (some model) supplied

/-- What a route handler sends back: `res.sendStatus(code)`, `res.send(usr)`
(the whole model), `res.send(users)` (a fetched collection), or
`res.send({id})`. -/
inductive HttpResponse where
  | status (code : Nat)
  | sendUser (u : UserRecord)
  | sendUsers (us : List UserRecord)
  | sendId (id : Nat)
deriving DecidableEq

/-- Serialization `res.send` applies to a user model (Bookshelf `toJSON`):
every attribute of the row, the password included. -/
def userJSON (u : UserRecord) : List (String × String) :=
  [("id", toString u.id), ("username", u.username), ("password", u.password)]

/-- The key/value pairs a client can read off a response body. -/
def responseBody : HttpResponse → List (String × String)
  | .status _ => []
  | .sendUser u => userJSON u
  | .sendUsers us => (us.map userJSON).flatten
  | .sendId i => [("id", toString i)]

/-- Embedding of `app.get('/user/:id')` (src/unnamed/part_001 lines 73-86):
a rejected fetch hits `.catch` and answers 500; a null fetch result is
`_.isEmpty` and answers 404; otherwise `res.send(usr)` sends the record. -/
def getUserById (fetchRes : Except JsError (Option UserRecord)) : HttpResponse :=
  match fetchRes with
  | .error _ => .status 500
  | .ok none => .status 404
  | .ok (some u) => .sendUser u

/-- Embedding of `app.get('/users')` (src/unnamed/part_001 lines 88-93): the
fetched collection is sent as is; the chain has no `.catch`, so a rejected
fetch produces no response at all. -/
def getUsers (fetchRes : Except JsError (List UserRecord)) : Option HttpResponse :=
  match fetchRes with
  | .error _ => none
  | .ok us => some (.sendUsers us)

/-- A parsed request body or stored row: a JavaScript object as its own
enumerable key/value pairs, which is what `_.isEmpty` inspects. -/
abbrev JsObject := List (String × String)

/-- Result of one POST handler run: the response sent, the table contents
afterwards, and whether `.forge(req.body).save()` was invoked at all. -/
structure PostResult where
  response : HttpResponse
  table : List JsObject
  saveInvoked : Bool
deriving DecidableEq

/-- Bookshelf `save` on an insert: either the driver rejects (nothing written)
or the row is appended and given the next id.  `err` is the oracle for the
driver's behaviour on this call. -/
def saveRow (table : List JsObject) (row : JsObject) (err : Option JsError) :
    Except JsError (Nat × List JsObject) :=
  match err with
  | some e => .error e
  | none => .ok (table.length + 1, table ++ [row])

/-- The creating hook as it acts on a raw body object: bcrypt-hash the value at
the `password` key. -/
def hashPasswordAttr (salt : Nat) (body : JsObject) : JsObject :=
  body.map fun kv => if kv.1 = "password" then (kv.1, bcryptHash salt kv.2) else kv

/-- Embedding of `app.post('/user')` (src/unnamed/part_001 lines 95-108): an
empty body answers 400 before any model is forged; otherwise the creating hook
hashes the password and the row is saved, answering `{id}` on success and 500
on a driver rejection. -/
def postUser (salt : Nat) (body : JsObject) (table : List JsObject) (err : Option JsError) :
    PostResult :=
  if body.isEmpty then ⟨.status 400, table, false⟩
  else
    match saveRow table (hashPasswordAttr salt body) err with
    | .error _ => ⟨.status 500, table, true⟩
    | .ok (id, table2) => ⟨.sendId id, table2, true⟩

/-- Embedding of `app.post('/post')` (src/unnamed/part_001 lines 137-150). -/
def postPost (body : JsObject) (table : List JsObject) (err : Option JsError) : PostResult :=
  if body.isEmpty then ⟨.status 400, table, false⟩
  else
    match saveRow table body err with
    | .error _ => ⟨.status 500, table, true⟩
    | .ok (id, table2) => ⟨.sendId id, table2, true⟩

/-- Embedding of `app.post('/comment')` (src/unnamed/part_001 lines 152-165);
same shape as `/post` (its `.catch` omits `return` but still sends 500). -/
def postComment (body : JsObject) (table : List JsObject) (err : Option JsError) : PostResult :=
  if body.isEmpty then ⟨.status 400, table, false⟩
  else
    match saveRow table body err with
    | .error _ => ⟨.status 500, table, true⟩
    | .ok (id, table2) => ⟨.sendId id, table2, true⟩

/-- A concrete stored user used by closed counterexample statements. -/
def sampleUser : UserRecord :=
  { id := 1, username := "alice", password := bcryptHash 2 "correct" }

/-- A concrete stored user matching the spec's creation scenario. -/
def bobStored : UserRecord :=
  { id := 1, username := "bob", password := bcryptHash 0 "plain123" }

/-- C1: the claim says a login whose username exists and whose password
verifies yields `Authenticated(identity)`.  The code inverts the guard
(`if (usr) return done(null, false)`), so at the failing input — the store
holds `bobStored`, whose hash verifies `plain123` — the strategy answers
`Rejected`, never `Authenticated`. -/
theorem C1_matching_login_rejected :
    bcryptCompare "plain123" bobStored.password = true ∧
    localStrategy (.ok (some bobStored)) "plain123" = .rejected ∧
    ∀ u, localStrategy (.ok (some bobStored)) "plain123" ≠ .authenticated u := by
  refine ⟨bcryptCompare_hash 0 "plain123", rfl, ?_⟩
  intro u h
  exact AuthOutcome.noConfusion h

/-- C2: the claim says an unknown username yields `Rejected`.  The code falls
past the inverted guard when `usr` is null and calls `usr.validatePassword`,
throwing a TypeError that the `.catch` turns into `done(err)`: the outcome is
`Errored`, not `Rejected`. -/
theorem C2_unknown_user_errors :
    localStrategy (.ok none) "whatever" =
      .errored (.typeError "Cannot read property validatePassword of null") ∧
    localStrategy (.ok none) "whatever" ≠ .rejected := by
  refine ⟨rfl, ?_⟩
  intro h
  exact AuthOutcome.noConfusion h

/-- C3 counterexample: GET /user/:id for a stored user answers `res.send(usr)`,
and the response body carries the `password` attribute with the stored hash. -/
theorem C3_password_leaks :
    ("password", sampleUser.password) ∈ responseBody (getUserById (.ok (some sampleUser))) := by
  simp [responseBody, getUserById, userJSON]

/-- C3 amended: the password hash IS returned to clients — the responses of
GET /user/:id (for an existing user) and GET /users include each record's
`password` attribute verbatim; nothing strips it before `res.send`. -/
theorem C3_responses_carry_password (u : UserRecord) (us : List UserRecord) (hu : u ∈ us) :
    ("password", u.password) ∈ responseBody (getUserById (.ok (some u))) ∧
    getUsers (.ok us) = some (.sendUsers us) ∧
    ("password", u.password) ∈ responseBody (.sendUsers us) := by
  refine ⟨by simp [responseBody, getUserById, userJSON], rfl, ?_⟩
  simp only [responseBody, List.mem_flatten]
  exact ⟨userJSON u, List.mem_map_of_mem userJSON hu, by simp [userJSON]⟩

/-- C3 amended, witness at a concrete store. -/
theorem C3_responses_carry_password_w :
    ("password", sampleUser.password) ∈
      responseBody (getUserById (.ok (some sampleUser))) ∧
    getUsers (.ok [sampleUser, bobStored]) = some (.sendUsers [sampleUser, bobStored]) ∧
    ("password", sampleUser.password) ∈ responseBody (.sendUsers [sampleUser, bobStored]) :=
  C3_responses_carry_password sampleUser [sampleUser, bobStored] (by simp)

/-- C4: creating a user runs the `creating` hook before the insert commits, so
the stored password attribute is the bcrypt hash of the plaintext, is never the
plaintext itself, and verifies against it. -/
theorem C4_creation_hashes (salt : Nat) (attrs : UserRecord) :
    (createUser salt attrs).password = bcryptHash salt attrs.password ∧
    (createUser salt attrs).password ≠ attrs.password ∧
    bcryptCompare attrs.password (createUser salt attrs).password = true := by
  refine ⟨rfl, ?_, ?_⟩
  · exact bcryptHash_ne_plain salt attrs.password
  · exact bcryptCompare_hash salt attrs.password

/-- C5: the arrow-function `validatePassword` captures the module context, not
the model, so its result is the same for every model and is a TypeError
rejection — it never reads the identity's real hash and never resolves `true`;
the function-declared variant does read the model's stored hash, and validates
the original plaintext whenever the stored hash came from it. -/
theorem C5_arrow_never_reads_model (m m' : UserRecord) (s : String) :
    validatePasswordArrow m s = validatePasswordArrow m' s ∧
    validatePasswordArrow m s = .error (.typeError "Cannot read property password of undefined") ∧
    validatePasswordArrow m s ≠ .ok true ∧
    (∀ salt, m.password = bcryptHash salt s → validatePasswordFn m s = .ok true) := by
  refine ⟨rfl, rfl, ?_, ?_⟩
  · intro h
    exact Except.noConfusion h
  · intro salt hp
    simp [validatePasswordFn, validatePasswordBody, hp, bcryptCompare_hash]

/-- C5 witness: at a model storing the hash of `correct`, the function variant
validates `correct` while the arrow variant rejects with a TypeError. -/
theorem C5_arrow_never_reads_model_w :
    validatePasswordArrow sampleUser "correct" ≠ .ok true ∧
    validatePasswordFn sampleUser "correct" = .ok true :=
  ⟨(C5_arrow_never_reads_model sampleUser bobStored "correct").2.2.1,
   (C5_arrow_never_reads_model sampleUser bobStored "correct").2.2.2 2 rfl⟩

/-- C6: whenever the store lookup rejects, the strategy's `.catch` hands the
raw error to `done(err)`: the outcome is `Errored` with that very cause, and it
is distinct from `Rejected` and from any `Authenticated` outcome.  (The bcrypt
verify step is unreachable in this callback — see C1/C2 — so a lookup rejection
and the thrown TypeError are the only error sources, and both propagate raw.) -/
theorem C6_errors_propagate_raw (e : JsError) (pw : String) :
    localStrategy (.error e) pw = .errored e ∧
    localStrategy (.error e) pw ≠ .rejected ∧
    (∀ u, localStrategy (.error e) pw ≠ .authenticated u) ∧
    (∀ pw', localStrategy (.ok none) pw' ≠ .rejected) := by
  refine ⟨rfl, ?_, ?_, ?_⟩
  · intro h
    exact AuthOutcome.noConfusion h
  · intro u h
    exact AuthOutcome.noConfusion h
  · intro pw' h
    exact AuthOutcome.noConfusion h

/-- C7: the Password Hasher round-trips — verify of `p` against `hash(p)` is
`true` for every plaintext and every salt, and verify of `p` against `hash(q)`
is `false` whenever `p` and `q` differ. -/
theorem C7_hash_verify_roundtrip (salt : Nat) (p q : String) :
    bcryptCompare p (bcryptHash salt p) = true ∧
    (p ≠ q → bcryptCompare p (bcryptHash salt q) = false) := by
  exact ⟨bcryptCompare_hash salt p, fun h => bcryptCompare_hash_ne salt p q h⟩

/-- C7 witness at a concrete pair of distinct plaintexts. -/
theorem C7_hash_verify_roundtrip_w :
    bcryptCompare "correct" (bcryptHash 4 "correct") = true ∧
    bcryptCompare "correct" (bcryptHash 4 "wrong") = false :=
  ⟨(C7_hash_verify_roundtrip 4 "correct" "wrong").1,
   (C7_hash_verify_roundtrip 4 "correct" "wrong").2 (by decide)⟩

/-- C8: two hashing calls on the same plaintext draw different salts and so
produce different output strings, yet each output verifies against the
plaintext. -/
theorem C8_salting (s₁ s₂ : Nat) (p : String) (h : s₁ ≠ s₂) :
    bcryptHash s₁ p ≠ bcryptHash s₂ p ∧
    bcryptCompare p (bcryptHash s₁ p) = true ∧
    bcryptCompare p (bcryptHash s₂ p) = true :=
  ⟨bcryptHash_salt_ne s₁ s₂ p h, bcryptCompare_hash s₁ p, bcryptCompare_hash s₂ p⟩

/-- C8 witness at two concrete salts. -/
theorem C8_salting_w :
    bcryptHash 0 "plain123" ≠ bcryptHash 1 "plain123" ∧
    bcryptCompare "plain123" (bcryptHash 0 "plain123") = true ∧
    bcryptCompare "plain123" (bcryptHash 1 "plain123") = true :=
  C8_salting 0 1 "plain123" (by decide)

/-- C9: a POST to /user, /post or /comment with an empty body answers 400,
invokes no forge/save, and leaves the table exactly as it was. -/
theorem C9_empty_body_400 (salt : Nat) (body : JsObject) (table : List JsObject)
    (err : Option JsError) (h : body.isEmpty = true) :
    postUser salt body table err = ⟨.status 400, table, false⟩ ∧
    postPost body table err = ⟨.status 400, table, false⟩ ∧
    postComment body table err = ⟨.status 400, table, false⟩ := by
  refine ⟨?_, ?_, ?_⟩ <;> simp [postUser, postPost, postComment, h]

/-- C9 witness: an empty parsed body against a one-row table. -/
theorem C9_empty_body_400_w :
    postUser 0 [] [[("username", "alice")]] none =
      ⟨.status 400, [[("username", "alice")]], false⟩ ∧
    postPost [] [[("username", "alice")]] none =
      ⟨.status 400, [[("username", "alice")]], false⟩ ∧
    postComment [] [[("username", "alice")]] none =
      ⟨.status 400, [[("username", "alice")]], false⟩ :=
  C9_empty_body_400 0 [] [[("username", "alice")]] none rfl

/-- C10: GET /user/:id answers 500 exactly when the lookup rejects, 404 exactly
when no row matches, and sends the fetched record otherwise; the handler is a
total function of the fetch result and the three response shapes are pairwise
distinct, so exactly one is produced per request. -/
theorem C10_get_user_cases :
    (∀ e, getUserById (.error e) = .status 500) ∧
    getUserById (.ok none) = .status 404 ∧
    (∀ u, getUserById (.ok (some u)) = .sendUser u) ∧
    (HttpResponse.status 500 ≠ HttpResponse.status 404) ∧
    (∀ u, HttpResponse.sendUser u ≠ .status 500 ∧ HttpResponse.sendUser u ≠ .status 404) := by
  refine ⟨fun _ => rfl, rfl, fun _ => rfl, by decide, ?_⟩
  intro u
  exact ⟨fun h => HttpResponse.noConfusion h, fun h => HttpResponse.noConfusion h⟩

end BlogAuth
